import Mathlib

/-!
Shallow embedding of `PlayerPitchControlAnalysis.py`
(class `PlayerPitchControlAnalysisPlayer`) together with theorems checking the
natural-language specification against it.

Modelling conventions:
* pandas tracking DataFrames become association lists: a team's tracking data is
  a list of `(frame, row)` pairs and a row is a list of `(player id, PlayerData)`
  pairs; the column triple `"Home_5_vx"` is represented by the player key `"5"`
  together with the `vx` field of `PlayerData`.
* float `NaN` ("player not on pitch") is `Option.none`; defined floats are `ℚ`.
* `df.at[frame, col] = v` on a freshly copied frame becomes a functional update
  of the first matching entry; the original list is untouched, which mirrors the
  `copy()`-then-`.at[]` discipline of the source.
* Python exceptions become `Except PyError`; `ValueError`, `KeyError` and
  `IndexError` are distinguished, since the spec distinguishes dedicated
  validation errors from low-level indexing failures.
* the external surface model `Metrica_PitchControl.generate_pitch_control_for_event`
  is not part of the five source files; following the spec it is kept abstract
  as a deterministic function bundled with its own default pitch dimensions and
  default grid resolution (used when the caller omits those arguments).
-/

deriving instance DecidableEq for Except

namespace PitchControl

/-- One player's tracked values in a single frame row.  `none` models `NaN`. -/
structure PlayerData where
  x : Option ℚ
  y : Option ℚ
  vx : Option ℚ
  vy : Option ℚ
deriving DecidableEq, Repr

/-- A team's row at one frame: association list from player id to data. -/
abbrev TeamRow := List (String × PlayerData)

/-- A team's tracking DataFrame: association list from frame index to row. -/
abbrev Tracking := List (ℕ × TeamRow)

/-- First-occurrence association-list lookup (`df.loc`, `row[col]`). -/
def alookup {α β : Type} [DecidableEq α] (k : α) : List (α × β) → Option β
  | [] => none
  | e :: t => if e.1 = k then some e.2 else alookup k t

/-- Update the first entry with key `k` (`df.at[k, ...] = v` on a fresh copy). -/
def aupdate {α β : Type} [DecidableEq α] (k : α) (g : β → β) : List (α × β) → List (α × β)
  | [] => []
  | e :: t => if e.1 = k then (e.1, g e.2) :: t else e :: aupdate k g t

/-- Read one player's cell group at a frame. -/
def getPlayer (t : Tracking) (f : ℕ) (p : String) : Option PlayerData :=
  (alookup f t).bind (alookup p)

/-- Apply a single-player edit at one frame of a tracking DataFrame. -/
def atUpdate (t : Tracking) (f : ℕ) (p : String) (g : PlayerData → PlayerData) : Tracking :=
  aupdate f (aupdate p g) t

def setVx (v : Option ℚ) (pd : PlayerData) : PlayerData := { pd with vx := v }

def setVy (v : Option ℚ) (pd : PlayerData) : PlayerData := { pd with vy := v }

def setX (v : Option ℚ) (pd : PlayerData) : PlayerData := { pd with x := v }

def setY (v : Option ℚ) (pd : PlayerData) : PlayerData := { pd with y := v }

/-- `+=` on a possibly-`NaN` cell: `NaN + d` stays `NaN`. -/
def addX (d : ℚ) (pd : PlayerData) : PlayerData := { pd with x := pd.x.map (· + d) }

def addY (d : ℚ) (pd : PlayerData) : PlayerData := { pd with y := pd.y.map (· + d) }

/-- A pitch-control surface: 2D grid of cell values. -/
abbrev Surface := List (List ℚ)

/-- `numpy` sum over all cells. -/
def surfaceSum (s : Surface) : ℚ := (s.map (fun r => r.sum)).sum

/-- Cell-wise subtraction of two same-shaped surfaces. -/
def surfaceSub (a b : Surface) : Surface := List.zipWith (List.zipWith (· - ·)) a b

/-- Decidable "every cell is zero" check on a surface. -/
def surfaceAllZero (s : Surface) : Bool := s.all (fun r => r.all (fun c => decide (c = 0)))

/-- Python exception kinds the analysis code can raise. -/
inductive PyError : Type where
  | valueError : String → PyError
  | keyError : String → PyError
  | indexError : PyError
deriving DecidableEq, Repr

def PyError.isValueError : PyError → Bool
  | .valueError _ => true
  | _ => false

/-- A Python dict with string keys and float values (hyperopt result dicts). -/
abbrev Dict := List (String × ℚ)

/-- `d[k]`: raises `KeyError` when the key is absent. -/
def dictGet (d : Dict) (k : String) : Except PyError ℚ :=
  match alookup k d with
  | some v => Except.ok v
  | none => Except.error (PyError.keyError k)

/-- Input record of one call to the external surface generator. -/
structure GenInput where
  event_id : ℕ
  eventsTag : ℕ
  params : ℕ
  tracking_home : Tracking
  tracking_away : Tracking
  fieldDimen : ℚ × ℚ
  nGridCellsX : ℕ
deriving DecidableEq

/-- Modelled from the spec: the external surface generator
(`Metrica_PitchControl.generate_pitch_control_for_event`, not among the `src`
files) is a pure deterministic function from its inputs to a surface plus its
`xgrid`/`ygrid` coordinate arrays; it owns default pitch dimensions and a
default x-grid-cell count that are used whenever a caller omits the
`field_dimen`/`n_grid_cells_x` arguments. -/
structure SurfaceGenerator where
  gen : GenInput → Surface × List ℚ × List ℚ
  defaultFieldDimen : ℚ × ℚ
  defaultNGridCellsX : ℕ

/-- Constructor arguments of `PlayerPitchControlAnalysisPlayer.__init__`.
The `events` DataFrame is abstracted to the two values the class reads from it
(`Start Frame` and `Team` of the analyzed event) plus an opaque tag. -/
structure AnalysisArgs where
  tracking_home : Tracking
  tracking_away : Tracking
  params : ℕ
  eventsTag : ℕ
  event_id : ℕ
  start_frame : ℕ
  team_of_event : String
  team_player_to_analyze : String
  player_to_analyze : String
  field_dimens : ℚ × ℚ
  n_grid_cells_x : ℕ
deriving DecidableEq

/-- The state of a constructed `PlayerPitchControlAnalysisPlayer` object. -/
structure Ctx where
  tracking_home : Tracking
  tracking_away : Tracking
  params : ℕ
  eventsTag : ℕ
  event_id : ℕ
  team_player_to_analyze : String
  player_to_analyze : String
  field_dimens : ℚ × ℚ
  n_grid_cells_x : ℕ
  tracking_frame : ℕ
  team_in_possession : String
  event_pitch_control : Surface
  xgrid : List ℚ
  ygrid : List ℚ
deriving DecidableEq

/-- The `__init__` baseline call to the generator: it forwards `event_id`,
`events`, the two tracking frames and `params`, but omits `field_dimen` and
`n_grid_cells_x`, so the generator's own defaults apply. -/
def baseline_gen_input (G : SurfaceGenerator) (a : AnalysisArgs) : GenInput :=
  { event_id := a.event_id
    eventsTag := a.eventsTag
    params := a.params
    tracking_home := a.tracking_home
    tracking_away := a.tracking_away
    fieldDimen := G.defaultFieldDimen
    nGridCellsX := G.defaultNGridCellsX }

/-- `PlayerPitchControlAnalysisPlayer.__init__`: store the arguments, read the
event's start frame and possession team, and cache the baseline surface. -/
def mkContext (G : SurfaceGenerator) (a : AnalysisArgs) : Ctx :=
  let r := G.gen (baseline_gen_input G a)
  { tracking_home := a.tracking_home
    tracking_away := a.tracking_away
    params := a.params
    eventsTag := a.eventsTag
    event_id := a.event_id
    team_player_to_analyze := a.team_player_to_analyze
    player_to_analyze := a.player_to_analyze
    field_dimens := a.field_dimens
    n_grid_cells_x := a.n_grid_cells_x
    tracking_frame := a.start_frame
    team_in_possession := a.team_of_event
    event_pitch_control := r.1
    xgrid := r.2.1
    ygrid := r.2.2 }

/-- The generator call made by every perturbed-scenario function: it forwards
the constructor-supplied `field_dimens` and `n_grid_cells_x`. -/
def perturbed_gen_input (ctx : Ctx) (th ta : Tracking) : GenInput :=
  { event_id := ctx.event_id
    eventsTag := ctx.eventsTag
    params := ctx.params
    tracking_home := th
    tracking_away := ta
    fieldDimen := ctx.field_dimens
    nGridCellsX := ctx.n_grid_cells_x }

/-- `_get_players_on_pitch`: read the event-frame row of the requested team
(every non-`"Home"` argument selects the away frame, as in the source `else`)
and keep the ids of players whose `vx` column is not `NaN`. -/
def _get_players_on_pitch (ctx : Ctx) (team : String) : Except PyError (List String) :=
  match alookup ctx.tracking_frame
      (if team = "Home" then ctx.tracking_home else ctx.tracking_away) with
  | none => Except.error (PyError.keyError "Start Frame")
  | some row => Except.ok ((row.filter (fun e => e.2.vx.isSome)).map (fun e => e.1))

/-- `_validate_inputs`: team tag must be a literal `"Home"`/`"Away"` and the
player must be on the pitch for that team.  (The Python type check on
`player_to_analyze` cannot fail in this embedding, where ids are strings.) -/
def _validate_inputs (ctx : Ctx) : Except PyError Unit :=
  if ctx.team_player_to_analyze ∉ ["Home", "Away"] then
    Except.error (PyError.valueError "team_player_to_analyze must equal Home or Away")
  else
    match _get_players_on_pitch ctx ctx.team_player_to_analyze with
    | Except.error e => Except.error e
    | Except.ok players =>
      if ctx.player_to_analyze ∉ players then
        Except.error (PyError.valueError
          "player_to_analyze is either not on the correct team, or was not on the pitch at the time of the event")
      else Except.ok ()

/-- Snapshot mutator of `calculate_pitch_control_replaced_velocity`: two
`.at[frame, ..._vx/_vy] = v` writes on fresh copies of the analyzed team's
frame; the other team's frame is passed through untouched. -/
def movement_tracking (ctx : Ctx) (rvx rvy : ℚ) : Tracking × Tracking :=
  if ctx.team_player_to_analyze = "Home" then
    (atUpdate (atUpdate ctx.tracking_home ctx.tracking_frame ctx.player_to_analyze
        (setVx (some rvx))) ctx.tracking_frame ctx.player_to_analyze (setVy (some rvy)),
     ctx.tracking_away)
  else if ctx.team_player_to_analyze = "Away" then
    (ctx.tracking_home,
     atUpdate (atUpdate ctx.tracking_away ctx.tracking_frame ctx.player_to_analyze
        (setVx (some rvx))) ctx.tracking_frame ctx.player_to_analyze (setVy (some rvy)))
  else (ctx.tracking_home, ctx.tracking_away)

/-- Snapshot mutator of `calculate_pitch_control_without_player`: set the
subject's `x`, `y`, `vx`, `vy` cells to `NaN` at the event frame. -/
def presence_tracking (ctx : Ctx) : Tracking × Tracking :=
  if ctx.team_player_to_analyze = "Home" then
    (atUpdate (atUpdate (atUpdate (atUpdate ctx.tracking_home
        ctx.tracking_frame ctx.player_to_analyze (setX none))
        ctx.tracking_frame ctx.player_to_analyze (setY none))
        ctx.tracking_frame ctx.player_to_analyze (setVx none))
        ctx.tracking_frame ctx.player_to_analyze (setVy none),
     ctx.tracking_away)
  else if ctx.team_player_to_analyze = "Away" then
    (ctx.tracking_home,
     atUpdate (atUpdate (atUpdate (atUpdate ctx.tracking_away
        ctx.tracking_frame ctx.player_to_analyze (setX none))
        ctx.tracking_frame ctx.player_to_analyze (setY none))
        ctx.tracking_frame ctx.player_to_analyze (setVx none))
        ctx.tracking_frame ctx.player_to_analyze (setVy none))
  else (ctx.tracking_home, ctx.tracking_away)

/-- Snapshot mutator of `calculate_pitch_control_new_location`: `+=` the
relative offsets onto the subject's position and, when requested, overwrite the
velocity cells. -/
def location_tracking (ctx : Ctx) (dx dy : ℚ) (replace_velocity : Bool)
    (rvx rvy : ℚ) : Tracking × Tracking :=
  if ctx.team_player_to_analyze = "Home" then
    (if replace_velocity then
       atUpdate (atUpdate (atUpdate (atUpdate ctx.tracking_home
           ctx.tracking_frame ctx.player_to_analyze (addX dx))
           ctx.tracking_frame ctx.player_to_analyze (addY dy))
           ctx.tracking_frame ctx.player_to_analyze (setVx (some rvx)))
           ctx.tracking_frame ctx.player_to_analyze (setVy (some rvy))
     else
       atUpdate (atUpdate ctx.tracking_home
           ctx.tracking_frame ctx.player_to_analyze (addX dx))
           ctx.tracking_frame ctx.player_to_analyze (addY dy),
     ctx.tracking_away)
  else if ctx.team_player_to_analyze = "Away" then
    (ctx.tracking_home,
     if replace_velocity then
       atUpdate (atUpdate (atUpdate (atUpdate ctx.tracking_away
           ctx.tracking_frame ctx.player_to_analyze (addX dx))
           ctx.tracking_frame ctx.player_to_analyze (addY dy))
           ctx.tracking_frame ctx.player_to_analyze (setVx (some rvx)))
           ctx.tracking_frame ctx.player_to_analyze (setVy (some rvy))
     else
       atUpdate (atUpdate ctx.tracking_away
           ctx.tracking_frame ctx.player_to_analyze (addX dx))
           ctx.tracking_frame ctx.player_to_analyze (addY dy))
  else (ctx.tracking_home, ctx.tracking_away)

/-- Result of one perturbed-scenario computation: the advisory warnings that
were emitted (Python `warnings.warn`) plus the returned surface and grids. -/
structure PCOut where
  warnings : List String
  surface : Surface
  xgrid : List ℚ
  ygrid : List ℚ
deriving DecidableEq, Repr

def stationary_warning : String :=
  "You have not specified a new velocity vector for the player. All analysis will assume that the player is stationary in his/her new location"

/-- `calculate_pitch_control_replaced_velocity`: validate, replace the
subject's velocity on a fresh copy, and regenerate the surface with the
constructor-supplied `field_dimens`/`n_grid_cells_x`.  No warning is emitted
on this path. -/
def calculate_pitch_control_replaced_velocity (G : SurfaceGenerator) (ctx : Ctx)
    (replace_x_velocity replace_y_velocity : ℚ) : Except PyError PCOut :=
  match _validate_inputs ctx with
  | Except.error e => Except.error e
  | Except.ok _ =>
    let tt := movement_tracking ctx replace_x_velocity replace_y_velocity
    let r := G.gen (perturbed_gen_input ctx tt.1 tt.2)
    Except.ok ⟨[], r.1, r.2.1, r.2.2⟩

/-- `calculate_pitch_control_without_player`. -/
def calculate_pitch_control_without_player (G : SurfaceGenerator) (ctx : Ctx) :
    Except PyError PCOut :=
  match _validate_inputs ctx with
  | Except.error e => Except.error e
  | Except.ok _ =>
    let tt := presence_tracking ctx
    let r := G.gen (perturbed_gen_input ctx tt.1 tt.2)
    Except.ok ⟨[], r.1, r.2.1, r.2.2⟩

/-- `calculate_pitch_control_new_location`: warns (non-fatally) when a velocity
replacement is requested with an all-zero vector, then moves the player and
regenerates the surface. -/
def calculate_pitch_control_new_location (G : SurfaceGenerator) (ctx : Ctx)
    (relative_x_change relative_y_change : ℚ) (replace_velocity : Bool)
    (replace_x_velocity replace_y_velocity : ℚ) : Except PyError PCOut :=
  match _validate_inputs ctx with
  | Except.error e => Except.error e
  | Except.ok _ =>
    let ws := if replace_velocity && decide (replace_x_velocity = 0)
                 && decide (replace_y_velocity = 0) then [stationary_warning] else []
    let tt := location_tracking ctx relative_x_change relative_y_change
        replace_velocity replace_x_velocity replace_y_velocity
    let r := G.gen (perturbed_gen_input ctx tt.1 tt.2)
    Except.ok ⟨ws, r.1, r.2.1, r.2.2⟩

/-- `calculate_pitch_control_difference`: dispatch on the scenario string,
then subtract the edited surface from the cached baseline. -/
def calculate_pitch_control_difference (G : SurfaceGenerator) (ctx : Ctx)
    (replace_velocity : Bool) (replace_x_velocity replace_y_velocity : ℚ)
    (relative_x_change relative_y_change : ℚ) (replace_function : String) :
    Except PyError PCOut :=
  let edited :=
    if replace_function = "movement" then
      calculate_pitch_control_replaced_velocity G ctx replace_x_velocity replace_y_velocity
    else if replace_function = "presence" then
      calculate_pitch_control_without_player G ctx
    else if replace_function = "location" then
      calculate_pitch_control_new_location G ctx relative_x_change relative_y_change
        replace_velocity replace_x_velocity replace_y_velocity
    else
      Except.error (PyError.valueError
        "replace_function must be either movement, presence or location")
  match edited with
  | Except.error e => Except.error e
  | Except.ok out =>
    Except.ok ⟨out.warnings, surfaceSub ctx.event_pitch_control out.surface,
      out.xgrid, out.ygrid⟩

/-- `calculate_total_space_on_pitch_team`: Riemann-sum aggregation of a surface,
complemented for a non-possessing subject unless a difference is being taken. -/
def calculate_total_space_on_pitch_team (ctx : Ctx) (pitch_control_result : Surface)
    (calculating_diff : Bool) : ℚ :=
  let total_space_attacking :=
    ctx.field_dimens.1 * ctx.field_dimens.2 * surfaceSum pitch_control_result /
      ((ctx.xgrid.length : ℚ) * (ctx.ygrid.length : ℚ))
  if decide (ctx.team_player_to_analyze = ctx.team_in_possession) || calculating_diff then
    total_space_attacking
  else
    ctx.field_dimens.1 * ctx.field_dimens.2 - total_space_attacking

/-- Modelled from the spec (§4.3): `aggregate(surface, fieldDims) =
fieldArea * sum(cells) / cellCount` with `cellCount = len(xgrid) * len(ygrid)`. -/
def aggregateSpec (field_dimens : ℚ × ℚ) (xg yg : List ℚ) (s : Surface) : ℚ :=
  field_dimens.1 * field_dimens.2 * surfaceSum s / ((xg.length : ℚ) * (yg.length : ℚ))

/-- The sign application at the end of `calculate_space_created`:
`value * (2 * (team_in_possession == team_player_to_analyze) - 1)` composed
with the `calculating_diff=True` aggregation. -/
def signed_space_of_diff (ctx : Ctx) (delta : Surface) : ℚ :=
  calculate_total_space_on_pitch_team ctx delta true *
    (2 * (if ctx.team_in_possession = ctx.team_player_to_analyze then (1 : ℚ) else 0) - 1)

/-- `calculate_space_created`: aggregate the delta surface (as a difference)
and orient the sign by possession. -/
def calculate_space_created (G : SurfaceGenerator) (ctx : Ctx)
    (replace_x_velocity replace_y_velocity relative_x_change relative_y_change : ℚ)
    (replace_velocity : Bool) (replace_function : String) : Except PyError ℚ :=
  match calculate_pitch_control_difference G ctx replace_velocity replace_x_velocity
      replace_y_velocity relative_x_change relative_y_change replace_function with
  | Except.error e => Except.error e
  | Except.ok out =>
    let pitch_control_change := calculate_total_space_on_pitch_team ctx out.surface true
    Except.ok (pitch_control_change *
      (2 * (if ctx.team_in_possession = ctx.team_player_to_analyze then (1 : ℚ) else 0) - 1))

/-- Ascending comparison used to embed Python `sorted` on possibly-`NaN`
x-coordinates.  Comparisons against float `NaN` are unspecified in the source
(CPython's sort gives no meaningful order for them); the embedding fixes the
arbitrary but deterministic choice that `none` sorts first.  Every theorem
below only exercises `NaN`-free coordinate lists. -/
def leN (a b : Option ℚ) : Prop :=
  match a with
  | none => True
  | some x =>
    match b with
    | none => False
    | some y => x ≤ y

instance : DecidableRel leN := fun a b =>
  match a, b with
  | none, _ => isTrue trivial
  | some _, none => isFalse (fun h => h)
  | some x, some y => inferInstanceAs (Decidable (x ≤ y))

/-- Descending comparison (`sorted(..., reverse=True)`). -/
def geN (a b : Option ℚ) : Prop := leN b a

instance : DecidableRel geN := fun a b => inferInstanceAs (Decidable (leN b a))

instance : IsTotal (Option ℚ) leN :=
  ⟨fun a b =>
    match a, b with
    | none, _ => Or.inl trivial
    | some _, none => Or.inr trivial
    | some x, some y => (le_total x y).imp id id⟩

instance : IsTrans (Option ℚ) leN :=
  ⟨fun a b c hab hbc =>
    match a, b, c, hab, hbc with
    | none, _, _, _, _ => trivial
    | some _, some _, some _, hab, hbc => le_trans hab hbc⟩

instance : IsAntisymm (Option ℚ) leN :=
  ⟨fun a b hab hba =>
    match a, b, hab, hba with
    | none, none, _, _ => rfl
    | some _, some _, hab, hba => congrArg some (le_antisymm hab hba)⟩

instance : IsTotal (Option ℚ) geN := ⟨fun a b => (IsTotal.total (r := leN) b a).imp id id⟩

instance : IsTrans (Option ℚ) geN :=
  ⟨fun _ _ _ hab hbc => Trans.trans (r := leN) (s := leN) hbc hab⟩

instance : IsAntisymm (Option ℚ) geN :=
  ⟨fun a b hab hba => IsAntisymm.antisymm (r := leN) a b hba hab⟩

/-- `sorted(xs)` on x-coordinates. -/
def pySorted (xs : List (Option ℚ)) : List (Option ℚ) := List.insertionSort leN xs

/-- `sorted(xs, reverse=True)`. -/
def pySortedDesc (xs : List (Option ℚ)) : List (Option ℚ) := List.insertionSort geN xs

/-- The `x_coordinates` list built inside `_determine_offside_position`:
x-cells of the given team's on-pitch players at the event frame, in row order. -/
def x_coordinates_of_team (ctx : Ctx) (team : String) :
    Except PyError (List (Option ℚ)) :=
  match _get_players_on_pitch ctx team with
  | Except.error e => Except.error e
  | Except.ok players =>
    match alookup ctx.tracking_frame
        (if team = "Home" then ctx.tracking_home else ctx.tracking_away) with
    | none => Except.error (PyError.keyError "Start Frame")
    | some row =>
      players.mapM (fun p =>
        match alookup p row with
        | some pd => Except.ok pd.x
        | none => Except.error (PyError.keyError p))

/-- `_determine_offside_position`: second-lowest opposing x for a Home subject,
second-highest for an Away subject; any other team tag falls through and
returns Python `None` (outer `none`).  Indexing `sorted(...)[1]` on a list
with fewer than two elements is an unguarded `IndexError`. -/
def _determine_offside_position (ctx : Ctx) : Except PyError (Option (Option ℚ)) :=
  if ctx.team_player_to_analyze = "Home" then
    match x_coordinates_of_team ctx "Away" with
    | Except.error e => Except.error e
    | Except.ok x_coordinates =>
      match (pySorted x_coordinates)[1]? with
      | some v => Except.ok (some v)
      | none => Except.error PyError.indexError
  else if ctx.team_player_to_analyze = "Away" then
    match x_coordinates_of_team ctx "Home" with
    | Except.error e => Except.error e
    | Except.ok x_coordinates =>
      match (pySortedDesc x_coordinates)[1]? with
      | some v => Except.ok (some v)
      | none => Except.error PyError.indexError
  else Except.ok none

/-- Modelled from the spec (§4.4): collect opposing x-coordinates, sort
ascending; the boundary is the second-smallest entry when the subject attacks
toward decreasing x and the second-largest when attacking toward increasing x. -/
def offsideLineSpec (xs : List (Option ℚ)) (towardIncreasingX : Bool) :
    Option (Option ℚ) :=
  let s := pySorted xs
  if towardIncreasingX then s[s.length - 2]? else s[1]?

/-- Search-space bound values handed to `hyperopt.hp.uniform`.  Floating
square roots and `2*math.pi` are irrational, so bounds are kept symbolic and
interpreted into `ℝ` by `BoundExpr.toReal`. -/
inductive BoundExpr : Type where
  | rat : Option ℚ → BoundExpr
  | negSqrtHalfSq : ℚ → BoundExpr
  | sqrtHalfSq : ℚ → BoundExpr
  | twoPi : BoundExpr
deriving DecidableEq, Repr

/-- Real value of a bound expression (`rat none`, i.e. float `NaN`, has no
real value; it is mapped to an unused junk value). -/
noncomputable def BoundExpr.toReal : BoundExpr → ℝ
  | .rat (some q) => (q : ℝ)
  | .rat none => 0
  | .negSqrtHalfSq m => -1 * Real.sqrt ((m : ℝ) ^ 2 / 2)
  | .sqrtHalfSq m => Real.sqrt ((m : ℝ) ^ 2 / 2)
  | .twoPi => 2 * Real.pi

/-- A `hyperopt` search space: list of `hp.uniform(label, low, high)` entries.
`fmin` returns its best-parameter dict keyed by these labels. -/
abbrev HSpace := List (String × BoundExpr × BoundExpr)

/-- The best-parameter dict returned by `hyperopt.fmin`: one value per label of
the space.  The sampling itself is external; it is abstracted by `sample`. -/
def fminResult (space : HSpace) (sample : String → ℚ) : Dict :=
  space.map (fun e => (e.1, sample e.1))

/-- CPython `max(a, b)` with a possibly-`NaN` first argument: every comparison
against `NaN` is false, so a `NaN` first argument is returned unchanged. -/
def pyMax (a : Option ℚ) (b : ℚ) : Option ℚ := a.map (fun q => max q b)

/-- CPython `min(a, b)` with a possibly-`NaN` first argument. -/
def pyMin (a : Option ℚ) (b : ℚ) : Option ℚ := a.map (fun q => min q b)

/-- Subtraction on possibly-`NaN` values. -/
def osub (a b : Option ℚ) : Option ℚ := a.bind (fun x => b.map (fun y => x - y))

/-- Read one coordinate cell `tracking.loc[frame][col]` (`KeyError` when the
frame or column is missing; a present `NaN` cell is `none`). -/
def read_coordinate (t : Tracking) (f : ℕ) (p : String)
    (sel : PlayerData → Option ℚ) : Except PyError (Option ℚ) :=
  match alookup f t with
  | none => Except.error (PyError.keyError "frame")
  | some row =>
    match alookup p row with
    | none => Except.error (PyError.keyError p)
    | some pd => Except.ok (sel pd)

/-- The velocity-phase search space of `get_optimal_location_on_pitch`.  Note
the speed bounds the source hands to the library:
`hp.uniform("velocity", -sqrt(max_velocity**2/2), sqrt(max_velocity**2/2))`,
and `hp.uniform("angle", 0, 2*math.pi)`. -/
def velocity_space (loc_x_change loc_y_change max_velocity : ℚ) : HSpace :=
  [("x_change", BoundExpr.rat (some (loc_x_change - 1/100)),
      BoundExpr.rat (some (loc_x_change + 1/100))),
   ("y_change", BoundExpr.rat (some (loc_y_change - 1/100)),
      BoundExpr.rat (some (loc_y_change + 1/100))),
   ("velocity", BoundExpr.negSqrtHalfSq max_velocity, BoundExpr.sqrtHalfSq max_velocity),
   ("angle", BoundExpr.rat (some 0), BoundExpr.twoPi)]

/-- The values `get_optimal_location_on_pitch` reads out of the final
best-parameter dict to hand to the plotting call. -/
structure OptimalRun where
  x_change : ℚ
  y_change : ℚ
  velocity : ℚ
  angle : ℚ
deriving DecidableEq, Repr

/-- `get_optimal_location_on_pitch`, up to (and excluding) the final rendering.
The location-phase space stores its `hp.uniform` labels exactly as the source
writes them: the dict keys `velocity`/`angle` carry labels `"x_velocity"` and
`"y_velocity"`, and `fmin`'s result dict is keyed by those labels.  The final
step reads `velocity_optimization["x_change"]`, `["y_change"]`, `["velocity"]`
and `["angle"]` to build the plot arguments; plotting itself is external
rendering and out of scope. -/
def get_optimal_location_on_pitch (ctx : Ctx) (sample : String → ℚ)
    (size_of_grid : ℚ) (location_trials velocity_trials : ℤ) (max_velocity : ℚ) :
    Except PyError OptimalRun :=
  if location_trials = 0 ∧ velocity_trials = 0 then
    Except.error (PyError.valueError
      "One of location_trials or velocity_trials must be greater than 0")
  else if size_of_grid ≤ 0 then
    Except.error (PyError.valueError "size_of_grid must be greater than 0")
  else
    match _determine_offside_position ctx with
    | Except.error e => Except.error e
    | Except.ok offside_position =>
      let max_y_coord : ℚ := ctx.field_dimens.2 / 2
      let min_y_coord : ℚ := -1 * max_y_coord
      let coords : Except PyError (Option ℚ × Option ℚ × Option ℚ × Option ℚ) :=
        if ctx.team_player_to_analyze = "Home" then
          match read_coordinate ctx.tracking_home ctx.tracking_frame
              ctx.player_to_analyze (fun pd => pd.x),
            read_coordinate ctx.tracking_home ctx.tracking_frame
              ctx.player_to_analyze (fun pd => pd.y) with
          | Except.error e, _ => Except.error e
          | _, Except.error e => Except.error e
          | Except.ok px, Except.ok py =>
            Except.ok (px, py, offside_position.join, some (ctx.field_dimens.1 / 2))
        else if ctx.team_player_to_analyze = "Away" then
          match read_coordinate ctx.tracking_away ctx.tracking_frame
              ctx.player_to_analyze (fun pd => pd.x),
            read_coordinate ctx.tracking_away ctx.tracking_frame
              ctx.player_to_analyze (fun pd => pd.y) with
          | Except.error e, _ => Except.error e
          | _, Except.error e => Except.error e
          | Except.ok px, Except.ok py =>
            Except.ok (px, py, some (-1 * ctx.field_dimens.1 / 2), offside_position.join)
        else
          Except.error (PyError.valueError
            "team_player_to_analyze must be either Home or Away")
      match coords with
      | Except.error e => Except.error e
      | Except.ok (player_x, player_y, min_x_coord, max_x_coord) =>
        let location_optimization : Except PyError Dict :=
          if 0 < location_trials then
            let location_space : HSpace :=
              [("x_change",
                 BoundExpr.rat (pyMax (osub min_x_coord player_x) (-1 * size_of_grid / 2)),
                 BoundExpr.rat (pyMin (osub max_x_coord player_x) (size_of_grid / 2))),
               ("y_change",
                 BoundExpr.rat (pyMax (osub (some min_y_coord) player_y) (-1 * size_of_grid / 2)),
                 BoundExpr.rat (pyMin (osub (some max_y_coord) player_y) (size_of_grid / 2))),
               ("x_velocity", BoundExpr.rat (some (-1/1000)), BoundExpr.rat (some (1/1000))),
               ("y_velocity", BoundExpr.rat (some (-1/1000)), BoundExpr.rat (some (1/1000)))]
            Except.ok (fminResult location_space sample)
          else if location_trials = 0 then
            Except.ok [("x_change", 0), ("y_change", 0), ("x_velocity", 0), ("y_velocity", 0)]
          else
            Except.error (PyError.valueError
              "location_trials must be greater than or equal to 0")
        match location_optimization with
        | Except.error e => Except.error e
        | Except.ok location_optimization =>
          let velocity_optimization : Except PyError Dict :=
            if 0 < velocity_trials then
              match dictGet location_optimization "x_change",
                dictGet location_optimization "y_change" with
              | Except.error e, _ => Except.error e
              | _, Except.error e => Except.error e
              | Except.ok xc, Except.ok yc =>
                Except.ok (fminResult (velocity_space xc yc max_velocity) sample)
            else if velocity_trials = 0 then
              match dictGet location_optimization "x_change",
                dictGet location_optimization "y_change" with
              | Except.error e, _ => Except.error e
              | _, Except.error e => Except.error e
              | Except.ok xc, Except.ok yc =>
                Except.ok [("x_change", xc), ("y_change", yc),
                  ("x_velocity", 0), ("y_velocity", 0)]
            else
              Except.error (PyError.valueError
                "velocity_trials must be greater than or equal to 0")
          match velocity_optimization with
          | Except.error e => Except.error e
          | Except.ok velocity_optimization =>
            match dictGet velocity_optimization "x_change",
              dictGet velocity_optimization "y_change",
              dictGet velocity_optimization "velocity",
              dictGet velocity_optimization "angle" with
            | Except.error e, _, _, _ => Except.error e
            | _, Except.error e, _, _ => Except.error e
            | _, _, Except.error e, _ => Except.error e
            | _, _, _, Except.error e => Except.error e
            | Except.ok xch, Except.ok ych, Except.ok vel, Except.ok ang =>
              Except.ok ⟨xch, ych, vel, ang⟩

/-! ### Helper lemmas about the embedding -/

theorem alookup_cons {α β : Type} [DecidableEq α] (k : α) (e : α × β)
    (t : List (α × β)) :
    alookup k (e :: t) = if e.1 = k then some e.2 else alookup k t := rfl

theorem aupdate_cons {α β : Type} [DecidableEq α] (k : α) (g : β → β) (e : α × β)
    (t : List (α × β)) :
    aupdate k g (e :: t) = if e.1 = k then (e.1, g e.2) :: t else e :: aupdate k g t := rfl

theorem alookup_mem {α β : Type} [DecidableEq α] {k : α} {v : β} :
    ∀ {l : List (α × β)}, alookup k l = some v → (k, v) ∈ l
  | [], h => by simp [alookup] at h
  | e :: t, h => by
    rw [alookup_cons] at h
    by_cases he : e.1 = k
    · rw [if_pos he] at h
      injection h with h
      rw [← h, ← he, Prod.mk.eta]
      exact List.mem_cons_self e t
    · rw [if_neg he] at h
      exact List.mem_cons_of_mem _ (alookup_mem h)

theorem aupdate_eq_self {α β : Type} [DecidableEq α] {k : α} {v : β}
    {g : β → β} : ∀ {l : List (α × β)}, alookup k l = some v → g v = v →
    aupdate k g l = l
  | [], h, _ => by simp [alookup] at h
  | e :: t, h, hg => by
    rw [alookup_cons] at h
    rw [aupdate_cons]
    by_cases he : e.1 = k
    · rw [if_pos he] at h
      injection h with h
      rw [if_pos he]
      have hge : g e.2 = e.2 := by rw [h, hg]
      rw [hge, Prod.mk.eta]
    · rw [if_neg he] at h
      rw [if_neg he, aupdate_eq_self h hg]

theorem alookup_aupdate_ne {α β : Type} [DecidableEq α] {k k' : α} (hk : k' ≠ k)
    (g : β → β) : ∀ l : List (α × β), alookup k' (aupdate k g l) = alookup k' l
  | [] => rfl
  | e :: t => by
    rw [aupdate_cons]
    by_cases he : e.1 = k
    · have h1 : e.1 ≠ k' := fun h => hk (by rw [← h, he])
      rw [if_pos he, alookup_cons, alookup_cons]
      simp only [if_neg h1]
    · rw [if_neg he, alookup_cons, alookup_cons]
      by_cases he' : e.1 = k'
      · simp only [if_pos he']
      · simp only [if_neg he']
        exact alookup_aupdate_ne hk g t

theorem alookup_aupdate_self {α β : Type} [DecidableEq α] (k : α) (g : β → β) :
    ∀ l : List (α × β), alookup k (aupdate k g l) = (alookup k l).map g
  | [] => rfl
  | e :: t => by
    by_cases he : e.1 = k
    · simp [aupdate, alookup, he]
    · simp [aupdate, alookup, he, alookup_aupdate_self k g t]

theorem getPlayer_atUpdate_ne {t : Tracking} {f₀ f : ℕ} {p₀ p : String}
    {g : PlayerData → PlayerData} (h : ¬(f = f₀ ∧ p = p₀)) :
    getPlayer (atUpdate t f₀ p₀ g) f p = getPlayer t f p := by
  by_cases hf : f = f₀
  · have hp : p ≠ p₀ := fun hp => h ⟨hf, hp⟩
    subst hf
    unfold getPlayer atUpdate
    rw [alookup_aupdate_self]
    cases alookup f t with
    | none => rfl
    | some row => exact alookup_aupdate_ne hp g row
  · unfold getPlayer atUpdate
    rw [alookup_aupdate_ne hf]

theorem zipWith_sub_self_allZero :
    ∀ r : List ℚ, (List.zipWith (· - ·) r r).all (fun c => decide (c = 0)) = true
  | [] => rfl
  | c :: r => by simp [List.zipWith, zipWith_sub_self_allZero r]

theorem surfaceSub_self_allZero : ∀ s : Surface, surfaceAllZero (surfaceSub s s) = true
  | [] => rfl
  | r :: s => by
    simp only [surfaceSub, surfaceAllZero, List.zipWith, List.all_cons, Bool.and_eq_true]
    exact ⟨zipWith_sub_self_allZero r, surfaceSub_self_allZero s⟩

/-- A stable descending sort produces the reverse of the ascending sort
(they are permutations of the same list and both sorted descending). -/
theorem pySortedDesc_eq_reverse (xs : List (Option ℚ)) :
    pySortedDesc xs = (pySorted xs).reverse := by
  apply List.eq_of_perm_of_sorted (r := geN)
  · exact (List.perm_insertionSort geN xs).trans
      ((List.perm_insertionSort leN xs).symm.trans (pySorted xs).reverse_perm.symm)
  · exact List.sorted_insertionSort geN xs
  · exact List.pairwise_reverse.mpr (List.sorted_insertionSort leN xs)

/-- Element 1 of the descending sort is element `length - 2` of the ascending
sort, for lists with at least two elements. -/
theorem pySortedDesc_getElem_one {xs : List (Option ℚ)} (h : 2 ≤ xs.length) :
    (pySortedDesc xs)[1]? = (pySorted xs)[xs.length - 2]? := by
  rw [pySortedDesc_eq_reverse]
  have hlen : (pySorted xs).length = xs.length := List.length_insertionSort leN xs
  have h1 : 1 < (pySorted xs).length := by omega
  rw [List.getElem?_reverse h1, hlen]
  have h2 : xs.length - 1 - 1 = xs.length - 2 := by omega
  rw [h2]

/-! ### Concrete instances used by witnesses and counterexamples -/

/-- A fully-defined (on-pitch) player cell group. -/
def mkPD (x y vx vy : ℚ) : PlayerData := ⟨some x, some y, some vx, some vy⟩

/-- A generator whose surface depends on the grid-resolution argument it was
called with; its defaults match the class defaults `(106, 68)` and `50`. -/
def G1w : SurfaceGenerator :=
  ⟨fun i => (if i.nGridCellsX = 50 then [[7]] else [[9]], [0], [0]), (106, 68), 50⟩

/-- Constructor arguments matching the generator defaults. -/
def a1w : AnalysisArgs :=
  { tracking_home := [(100, [("1", mkPD 0 0 1 2)])]
    tracking_away := [(100, [("7", mkPD 3 3 0 0)])]
    params := 0
    eventsTag := 0
    event_id := 5
    start_frame := 100
    team_of_event := "Home"
    team_player_to_analyze := "Home"
    player_to_analyze := "1"
    field_dimens := (106, 68)
    n_grid_cells_x := 50 }

/-- The same constructor arguments with a non-default grid resolution. -/
def a1c : AnalysisArgs := { a1w with n_grid_cells_x := 25 }

/-- A constant generator for scenario-function evaluations. -/
def G5 : SurfaceGenerator := ⟨fun _ => ([[1/2, 1/4]], [1, 2], [3]), (106, 68), 50⟩

/-- A small valid analysis state (Home possession, subject Home player 1). -/
def ctx5 : Ctx :=
  { tracking_home := [(100, [("1", mkPD 0 0 1 2), ("2", mkPD 8 1 0 0)])]
    tracking_away := [(100, [("7", mkPD 3 3 0 0)])]
    params := 0
    eventsTag := 0
    event_id := 5
    team_player_to_analyze := "Home"
    player_to_analyze := "1"
    field_dimens := (106, 68)
    n_grid_cells_x := 50
    tracking_frame := 100
    team_in_possession := "Home"
    event_pitch_control := [[1, 1]]
    xgrid := [1, 2]
    ygrid := [3] }

/-- Away x-coordinates `[-10, -3, 0, 4, 9]`, as a row. -/
def rowC6 : TeamRow :=
  [("1", mkPD (-10) 0 0 0), ("2", mkPD (-3) 0 0 0), ("3", mkPD 0 0 0 0),
   ("4", mkPD 4 0 0 0), ("5", mkPD 9 0 0 0)]

/-- The x-coordinate list collected from `rowC6`. -/
def xsC6 : List (Option ℚ) := [some (-10), some (-3), some 0, some 4, some 9]

/-- Home subject facing the five opponents of `rowC6`. -/
def ctxC6Home : Ctx :=
  { ctx5 with team_player_to_analyze := "Home", tracking_away := [(100, rowC6)] }

/-- Away subject facing the five opponents of `rowC6`. -/
def ctxC6Away : Ctx :=
  { ctx5 with
    team_player_to_analyze := "Away"
    player_to_analyze := "7"
    tracking_home := [(100, rowC6)] }

/-- Home subject with a single opposing player on the pitch. -/
def ctxC7 : Ctx := { ctx5 with tracking_away := [(100, [("9", mkPD 5 5 0 0)])] }

/-- Context for exercising the optimizer: two opposing on-pitch players. -/
def ctxOpt : Ctx :=
  { ctx5 with tracking_away := [(100, [("7", mkPD (-10) 0 0 0), ("8", mkPD 10 0 0 0)])] }

/-- Arbitrary deterministic stand-in for the stochastic sampler. -/
def sample0 : String → ℚ := fun _ => 0

/-! ### Claim theorems -/

/-- Claim C10 (confirmed): the cached baseline surface is generated without
forwarding the analysis context's `field_dimens` and `n_grid_cells_x` (the
generator's defaults are used), while every perturbed-scenario call forwards
the constructor-supplied values; hence the two generator calls agree on their
grid-determining arguments iff the constructor arguments equal the generator's
defaults. -/
theorem c10_baseline_grid_arguments (G : SurfaceGenerator) (a : AnalysisArgs)
    (th ta : Tracking) :
    ((baseline_gen_input G a).fieldDimen = G.defaultFieldDimen
      ∧ (baseline_gen_input G a).nGridCellsX = G.defaultNGridCellsX)
  ∧ (mkContext G a).event_pitch_control = (G.gen (baseline_gen_input G a)).1
  ∧ ((perturbed_gen_input (mkContext G a) th ta).fieldDimen = a.field_dimens
      ∧ (perturbed_gen_input (mkContext G a) th ta).nGridCellsX = a.n_grid_cells_x)
  ∧ (((perturbed_gen_input (mkContext G a) th ta).fieldDimen,
        (perturbed_gen_input (mkContext G a) th ta).nGridCellsX)
        = ((baseline_gen_input G a).fieldDimen, (baseline_gen_input G a).nGridCellsX)
      ↔ a.field_dimens = G.defaultFieldDimen ∧ a.n_grid_cells_x = G.defaultNGridCellsX) := by
  refine ⟨⟨rfl, rfl⟩, rfl, ⟨rfl, rfl⟩, ?_⟩
  simp [perturbed_gen_input, baseline_gen_input, mkContext, Prod.ext_iff]

/-- Claim C4 (confirmed): `calculate_total_space_on_pitch_team` returns
`fieldArea * sum(cells) / cellCount` whenever the subject's team is in
possession or `calculating_diff` is true, and `fieldArea` minus that value
exactly otherwise; the complement is never applied to a difference. -/
theorem c4_total_space_aggregation (ctx : Ctx) (pcr : Surface) (calculating_diff : Bool) :
    calculate_total_space_on_pitch_team ctx pcr calculating_diff
      = if decide (ctx.team_player_to_analyze = ctx.team_in_possession) || calculating_diff
        then aggregateSpec ctx.field_dimens ctx.xgrid ctx.ygrid pcr
        else ctx.field_dimens.1 * ctx.field_dimens.2
          - aggregateSpec ctx.field_dimens ctx.xgrid ctx.ygrid pcr := rfl

/-- Claim C5 (confirmed): `calculate_space_created` equals the
`calculating_diff=True` aggregation of the delta surface multiplied by `+1`
when the possessing team equals the subject's team and by `-1` otherwise; and
for the same raw delta surface the signed metric with the subject on the
possessing team is the exact negation of the metric with the subject on any
other team. -/
theorem c5_space_created_sign (G : SurfaceGenerator) (ctx : Ctx) (rv : Bool)
    (rvx rvy dxc dyc : ℚ) (rf : String) (out : PCOut)
    (h : calculate_pitch_control_difference G ctx rv rvx rvy dxc dyc rf = Except.ok out) :
    (calculate_space_created G ctx rvx rvy dxc dyc rv rf
        = Except.ok (calculate_total_space_on_pitch_team ctx out.surface true
            * (if ctx.team_in_possession = ctx.team_player_to_analyze then (1 : ℚ) else -1)))
  ∧ (∀ (delta : Surface) (t' : String),
      ctx.team_player_to_analyze = ctx.team_in_possession →
      t' ≠ ctx.team_in_possession →
      signed_space_of_diff ctx delta
        = -signed_space_of_diff { ctx with team_player_to_analyze := t' } delta) := by
  constructor
  · unfold calculate_space_created
    rw [h]
    by_cases hp : ctx.team_in_possession = ctx.team_player_to_analyze
    · rw [if_pos hp, if_pos hp]; ring_nf
    · rw [if_neg hp, if_neg hp]; ring_nf
  · intro delta t' h1 h2
    unfold signed_space_of_diff calculate_total_space_on_pitch_team
    simp only [Bool.or_true, if_true]
    rw [if_pos h1.symm, if_neg (fun hh : ctx.team_in_possession = t' => h2 hh.symm)]
    ring

/-- Witness for C5 at a concrete context, generator and delta surface. -/
theorem c5_space_created_sign_witness :
    calculate_space_created G5 ctx5 0 0 0 0 false "movement"
      = Except.ok (calculate_total_space_on_pitch_team ctx5 [[1 - 1/2, 1 - 1/4]] true
          * (if ctx5.team_in_possession = ctx5.team_player_to_analyze then (1 : ℚ) else -1)) :=
  (c5_space_created_sign G5 ctx5 false 0 0 0 0 "movement"
    ⟨[], [[1 - 1/2, 1 - 1/4]], [1, 2], [3]⟩ (by rfl)).1

/-- Claim C8 (corrected): the all-zero-replacement warning belongs to the
Location scenario (`calculate_pitch_control_new_location` with
`replace_velocity=True` and both components zero); the Movement scenario
emits no warning at all and still completes, returning the edited surface. -/
theorem c8_movement_emits_no_warning (G : SurfaceGenerator) (ctx : Ctx)
    (h : _validate_inputs ctx = Except.ok ()) :
    ((calculate_pitch_control_replaced_velocity G ctx 0 0).map (fun o => o.warnings)
        = Except.ok [])
  ∧ (∀ dx dy : ℚ,
      (calculate_pitch_control_new_location G ctx dx dy true 0 0).map (fun o => o.warnings)
        = Except.ok [stationary_warning]) := by
  constructor
  · unfold calculate_pitch_control_replaced_velocity
    rw [h]
    rfl
  · intro dx dy
    unfold calculate_pitch_control_new_location
    rw [h]
    rfl

/-- Witness for C8's amended statement at a concrete valid context. -/
theorem c8_movement_emits_no_warning_witness :
    (calculate_pitch_control_replaced_velocity G5 ctx5 0 0).map (fun o => o.warnings)
      = Except.ok [] :=
  (c8_movement_emits_no_warning G5 ctx5 (by decide)).1

/-- Counterexample to C8 as stated: requesting an all-zero replacement
velocity in the Movement scenario completes with an empty warning list — no
warning is emitted on that path. -/
theorem c8_movement_warning_counterexample :
    calculate_pitch_control_replaced_velocity G5 ctx5 0 0
      = Except.ok ⟨[], [[1/2, 1/4]], [1, 2], [3]⟩ := rfl

/-- Claim C9 (confirmed): every perturbation (replaced velocity, removal, new
location) produces tracking copies in which the cell group of every
frame/player pair other than the subject player at the event frame is exactly
the original one, for both teams.  (Immutability of the original snapshots and
of the cached baseline surface is structural in this embedding: the scenario
functions read `ctx` and build fresh lists, mirroring the `copy()`-then-`.at[]`
discipline of the source.) -/
theorem c9_perturbations_touch_only_subject (ctx : Ctx) (rvx rvy dx dy : ℚ)
    (rv : Bool) (f : ℕ) (p : String)
    (h : ¬(f = ctx.tracking_frame ∧ p = ctx.player_to_analyze)) :
    (getPlayer (movement_tracking ctx rvx rvy).1 f p = getPlayer ctx.tracking_home f p
      ∧ getPlayer (movement_tracking ctx rvx rvy).2 f p = getPlayer ctx.tracking_away f p)
  ∧ (getPlayer (presence_tracking ctx).1 f p = getPlayer ctx.tracking_home f p
      ∧ getPlayer (presence_tracking ctx).2 f p = getPlayer ctx.tracking_away f p)
  ∧ (getPlayer (location_tracking ctx dx dy rv rvx rvy).1 f p
        = getPlayer ctx.tracking_home f p
      ∧ getPlayer (location_tracking ctx dx dy rv rvx rvy).2 f p
        = getPlayer ctx.tracking_away f p) := by
  refine ⟨?_, ?_, ?_⟩
  · unfold movement_tracking
    by_cases h1 : ctx.team_player_to_analyze = "Home"
    · rw [if_pos h1]
      exact ⟨by rw [getPlayer_atUpdate_ne h, getPlayer_atUpdate_ne h], rfl⟩
    · rw [if_neg h1]
      by_cases h2 : ctx.team_player_to_analyze = "Away"
      · rw [if_pos h2]
        exact ⟨rfl, by rw [getPlayer_atUpdate_ne h, getPlayer_atUpdate_ne h]⟩
      · rw [if_neg h2]
        exact ⟨rfl, rfl⟩
  · unfold presence_tracking
    by_cases h1 : ctx.team_player_to_analyze = "Home"
    · rw [if_pos h1]
      exact ⟨by rw [getPlayer_atUpdate_ne h, getPlayer_atUpdate_ne h,
        getPlayer_atUpdate_ne h, getPlayer_atUpdate_ne h], rfl⟩
    · rw [if_neg h1]
      by_cases h2 : ctx.team_player_to_analyze = "Away"
      · rw [if_pos h2]
        exact ⟨rfl, by rw [getPlayer_atUpdate_ne h, getPlayer_atUpdate_ne h,
          getPlayer_atUpdate_ne h, getPlayer_atUpdate_ne h]⟩
      · rw [if_neg h2]
        exact ⟨rfl, rfl⟩
  · unfold location_tracking
    by_cases h1 : ctx.team_player_to_analyze = "Home"
    · rw [if_pos h1]
      refine ⟨?_, rfl⟩
      cases rv with
      | true =>
        rw [if_pos rfl, getPlayer_atUpdate_ne h, getPlayer_atUpdate_ne h,
          getPlayer_atUpdate_ne h, getPlayer_atUpdate_ne h]
      | false =>
        rw [if_neg (by decide), getPlayer_atUpdate_ne h, getPlayer_atUpdate_ne h]
    · rw [if_neg h1]
      by_cases h2 : ctx.team_player_to_analyze = "Away"
      · rw [if_pos h2]
        refine ⟨rfl, ?_⟩
        cases rv with
        | true =>
          rw [if_pos rfl, getPlayer_atUpdate_ne h, getPlayer_atUpdate_ne h,
            getPlayer_atUpdate_ne h, getPlayer_atUpdate_ne h]
        | false =>
          rw [if_neg (by decide), getPlayer_atUpdate_ne h, getPlayer_atUpdate_ne h]
      · rw [if_neg h2]
        exact ⟨rfl, rfl⟩

/-- Witness for C9 at a concrete context and a non-subject player. -/
theorem c9_perturbations_touch_only_subject_witness :
    getPlayer (movement_tracking ctx5 3 4).1 100 "2" = getPlayer ctx5.tracking_home 100 "2" :=
  (c9_perturbations_touch_only_subject ctx5 3 4 0 0 false 100 "2" (by decide)).1.1

theorem get_players_home (ctx : Ctx) (row : TeamRow)
    (h : alookup ctx.tracking_frame ctx.tracking_home = some row) :
    _get_players_on_pitch ctx "Home"
      = Except.ok ((row.filter (fun e => e.2.vx.isSome)).map (fun e => e.1)) := by
  unfold _get_players_on_pitch
  rw [if_pos rfl, h]

theorem get_players_away (ctx : Ctx) (row : TeamRow)
    (h : alookup ctx.tracking_frame ctx.tracking_away = some row) :
    _get_players_on_pitch ctx "Away"
      = Except.ok ((row.filter (fun e => e.2.vx.isSome)).map (fun e => e.1)) := by
  unfold _get_players_on_pitch
  rw [if_neg (by decide), h]

/-- Claim C1 (corrected): for the Movement scenario, replacing a player's
velocity with its own current velocity yields an all-zero delta surface
provided the constructor-supplied `field_dimens` and `n_grid_cells_x` equal
the external generator's own defaults.  The proviso is forced by the source:
the cached baseline is generated with the generator's defaults while the
edited surface is generated with the constructor-supplied values (see the
counterexample for a context with a non-default grid resolution). -/
theorem c1_zero_perturbation_identity (G : SurfaceGenerator) (a : AnalysisArgs)
    (row : TeamRow) (pd : PlayerData) (rvx rvy : ℚ)
    (hfd : a.field_dimens = G.defaultFieldDimen)
    (hng : a.n_grid_cells_x = G.defaultNGridCellsX)
    (hteam : (a.team_player_to_analyze = "Home"
        ∧ alookup a.start_frame a.tracking_home = some row)
      ∨ (a.team_player_to_analyze = "Away"
        ∧ alookup a.start_frame a.tracking_away = some row))
    (hp : alookup a.player_to_analyze row = some pd)
    (hvx : pd.vx = some rvx) (hvy : pd.vy = some rvy) :
    (calculate_pitch_control_difference G (mkContext G a) false rvx rvy 0 0 "movement").map
      (fun o => surfaceAllZero o.surface) = Except.ok true := by
  have hmem : a.player_to_analyze
      ∈ (row.filter (fun e => e.2.vx.isSome)).map (fun e => e.1) := by
    refine List.mem_map.mpr ⟨(a.player_to_analyze, pd), ?_, rfl⟩
    refine List.mem_filter.mpr ⟨alookup_mem hp, ?_⟩
    rw [hvx]
    rfl
  have hsetvx : setVx (some rvx) pd = pd := by unfold setVx; rw [← hvx]
  have hsetvy : setVy (some rvy) pd = pd := by unfold setVy; rw [← hvy]
  have hgen : perturbed_gen_input (mkContext G a) a.tracking_home a.tracking_away
      = baseline_gen_input G a := by
    simp [perturbed_gen_input, baseline_gen_input, mkContext, hfd, hng]
  rcases hteam with ⟨ht, hrow⟩ | ⟨ht, hrow⟩
  · have hval : _validate_inputs (mkContext G a) = Except.ok () := by
      unfold _validate_inputs
      rw [show (mkContext G a).team_player_to_analyze = a.team_player_to_analyze from rfl,
        ht, if_neg (by decide), get_players_home _ row hrow]
      dsimp only
      rw [show (mkContext G a).player_to_analyze = a.player_to_analyze from rfl,
        if_neg (not_not_intro hmem)]
    have hmv : movement_tracking (mkContext G a) rvx rvy
        = (a.tracking_home, a.tracking_away) := by
      unfold movement_tracking
      rw [show (mkContext G a).team_player_to_analyze = a.team_player_to_analyze from rfl,
        ht, if_pos rfl]
      have hA : atUpdate a.tracking_home a.start_frame a.player_to_analyze
          (setVx (some rvx)) = a.tracking_home := by
        unfold atUpdate
        exact aupdate_eq_self hrow (aupdate_eq_self hp hsetvx)
      have hB : atUpdate a.tracking_home a.start_frame a.player_to_analyze
          (setVy (some rvy)) = a.tracking_home := by
        unfold atUpdate
        exact aupdate_eq_self hrow (aupdate_eq_self hp hsetvy)
      show (atUpdate (atUpdate a.tracking_home a.start_frame a.player_to_analyze
          (setVx (some rvx))) a.start_frame a.player_to_analyze (setVy (some rvy)),
          a.tracking_away) = (a.tracking_home, a.tracking_away)
      rw [hA, hB]
    unfold calculate_pitch_control_difference
    rw [if_pos rfl]
    unfold calculate_pitch_control_replaced_velocity
    rw [hval, hmv]
    dsimp only [Except.map]
    rw [hgen,
      show (mkContext G a).event_pitch_control = (G.gen (baseline_gen_input G a)).1 from rfl,
      surfaceSub_self_allZero]
  · have hval : _validate_inputs (mkContext G a) = Except.ok () := by
      unfold _validate_inputs
      rw [show (mkContext G a).team_player_to_analyze = a.team_player_to_analyze from rfl,
        ht, if_neg (by decide), get_players_away _ row hrow]
      dsimp only
      rw [show (mkContext G a).player_to_analyze = a.player_to_analyze from rfl,
        if_neg (not_not_intro hmem)]
    have hmv : movement_tracking (mkContext G a) rvx rvy
        = (a.tracking_home, a.tracking_away) := by
      unfold movement_tracking
      rw [show (mkContext G a).team_player_to_analyze = a.team_player_to_analyze from rfl,
        ht, if_neg (by decide), if_pos rfl]
      have hA : atUpdate a.tracking_away a.start_frame a.player_to_analyze
          (setVx (some rvx)) = a.tracking_away := by
        unfold atUpdate
        exact aupdate_eq_self hrow (aupdate_eq_self hp hsetvx)
      have hB : atUpdate a.tracking_away a.start_frame a.player_to_analyze
          (setVy (some rvy)) = a.tracking_away := by
        unfold atUpdate
        exact aupdate_eq_self hrow (aupdate_eq_self hp hsetvy)
      show (a.tracking_home,
          atUpdate (atUpdate a.tracking_away a.start_frame a.player_to_analyze
          (setVx (some rvx))) a.start_frame a.player_to_analyze (setVy (some rvy)))
        = (a.tracking_home, a.tracking_away)
      rw [hA, hB]
    unfold calculate_pitch_control_difference
    rw [if_pos rfl]
    unfold calculate_pitch_control_replaced_velocity
    rw [hval, hmv]
    dsimp only [Except.map]
    rw [hgen,
      show (mkContext G a).event_pitch_control = (G.gen (baseline_gen_input G a)).1 from rfl,
      surfaceSub_self_allZero]

/-- Witness for C1's amended statement: default-matching grid arguments and a
replacement equal to the subject's own velocity give an all-zero delta. -/
theorem c1_zero_perturbation_identity_witness :
    (calculate_pitch_control_difference G1w (mkContext G1w a1w) false 1 2 0 0 "movement").map
      (fun o => surfaceAllZero o.surface) = Except.ok true :=
  c1_zero_perturbation_identity G1w a1w [("1", mkPD 0 0 1 2)] (mkPD 0 0 1 2) 1 2
    (by decide) (by decide) (Or.inl ⟨rfl, by decide⟩) (by decide) (by decide) (by decide)

/-- Counterexample to C1 as stated: with a non-default `n_grid_cells_x` (25
instead of the generator's default 50) the baseline and edited surfaces come
from different generator calls, and replacing the subject's velocity with its
own current value yields a non-zero delta surface. -/
theorem c1_zero_perturbation_identity_counterexample :
    calculate_pitch_control_difference G1w (mkContext G1w a1c) false 1 2 0 0 "movement"
      = Except.ok ⟨[], [[(7 : ℚ) - 9]], [0], [0]⟩
    ∧ surfaceAllZero [[(7 : ℚ) - 9]] = false := by
  constructor
  · rfl
  · have h : (7 : ℚ) - 9 = -2 := by norm_num
    rw [h]
    decide

/-- Claim C6 (confirmed): with at least two opposing players on the pitch, the
offside boundary is the spec's "sort ascending, take the second-smallest"
value for a Home subject (attacking toward decreasing x) and the
"second-largest" value for an Away subject (attacking toward increasing x);
concretely, for opposing x-coordinates `[-10, -3, 0, 4, 9]` the result is `4`
for an Away subject and `-3` for a Home subject. -/
theorem c6_offside_boundary :
    (∀ (ctx : Ctx) (xs : List (Option ℚ)) (v : Option ℚ),
      ctx.team_player_to_analyze = "Home" →
      x_coordinates_of_team ctx "Away" = Except.ok xs → 2 ≤ xs.length →
      offsideLineSpec xs false = some v →
      _determine_offside_position ctx = Except.ok (some v))
  ∧ (∀ (ctx : Ctx) (xs : List (Option ℚ)) (v : Option ℚ),
      ctx.team_player_to_analyze = "Away" →
      x_coordinates_of_team ctx "Home" = Except.ok xs → 2 ≤ xs.length →
      offsideLineSpec xs true = some v →
      _determine_offside_position ctx = Except.ok (some v))
  ∧ _determine_offside_position ctxC6Home = Except.ok (some (some (-3)))
  ∧ _determine_offside_position ctxC6Away = Except.ok (some (some 4)) := by
  refine ⟨?_, ?_, by decide, by decide⟩
  · intro ctx xs v hteam hxs _hlen hspec
    unfold _determine_offside_position
    rw [if_pos hteam, hxs]
    dsimp only
    unfold offsideLineSpec at hspec
    rw [if_neg (by decide)] at hspec
    rw [show (pySorted xs)[1]? = some v from hspec]
  · intro ctx xs v hteam hxs hlen hspec
    unfold _determine_offside_position
    rw [if_neg (by rw [hteam]; decide), if_pos hteam, hxs]
    unfold offsideLineSpec at hspec
    rw [if_pos rfl] at hspec
    dsimp only
    have hdesc : (pySortedDesc xs)[1]? = some v := by
      rw [pySortedDesc_getElem_one hlen]
      rw [show (pySorted xs).length = xs.length from List.length_insertionSort leN xs] at hspec
      exact hspec
    rw [hdesc]

/-- Witness for C6's general Home-subject statement at a concrete snapshot. -/
theorem c6_offside_boundary_witness :
    _determine_offside_position ctxC6Home = Except.ok (some (some (-3))) :=
  c6_offside_boundary.1 ctxC6Home xsC6 (some (-3)) (by decide) (by decide) (by decide)
    (by decide)

/-- Claim C7 (corrected): with fewer than two opposing players on the pitch the
offside computation does fail, but with the unguarded low-level index error of
`sorted(x_coordinates)[1]`, not with a dedicated validation error. -/
theorem c7_insufficient_defenders_index_error (ctx : Ctx) (xs : List (Option ℚ))
    (h : (ctx.team_player_to_analyze = "Home"
        ∧ x_coordinates_of_team ctx "Away" = Except.ok xs)
      ∨ (ctx.team_player_to_analyze = "Away"
        ∧ x_coordinates_of_team ctx "Home" = Except.ok xs))
    (hlen : xs.length < 2) :
    _determine_offside_position ctx = Except.error PyError.indexError := by
  rcases h with ⟨hteam, hxs⟩ | ⟨hteam, hxs⟩
  · unfold _determine_offside_position
    rw [if_pos hteam, hxs]
    dsimp only
    have hnone : (pySorted xs)[1]? = none := by
      refine List.getElem?_eq_none ?_
      unfold pySorted
      rw [List.length_insertionSort]
      omega
    rw [hnone]
  · unfold _determine_offside_position
    rw [if_neg (by rw [hteam]; decide), if_pos hteam, hxs]
    dsimp only
    have hnone : (pySortedDesc xs)[1]? = none := by
      refine List.getElem?_eq_none ?_
      unfold pySortedDesc
      rw [List.length_insertionSort]
      omega
    rw [hnone]

/-- Witness for C7's amended statement at a one-defender snapshot. -/
theorem c7_insufficient_defenders_index_error_witness :
    _determine_offside_position ctxC7 = Except.error PyError.indexError :=
  c7_insufficient_defenders_index_error ctxC7 [some 5]
    (Or.inl ⟨by decide, by decide⟩) (by decide)

/-- Counterexample to C7 as stated: with a single opposing player the failure
is an `IndexError`, which is not a dedicated validation error. -/
theorem c7_insufficient_defenders_counterexample :
    _determine_offside_position ctxC7 = Except.error PyError.indexError
    ∧ PyError.isValueError PyError.indexError = false := by
  exact ⟨by decide, rfl⟩

/-- Claim C3 (corrected): the speed bounds the velocity phase hands to the
stochastic search library are `-sqrt(max_velocity^2/2)` and
`+sqrt(max_velocity^2/2)` — that is, `∓ max_velocity/√2`, not `0` and
`max_velocity`; the heading bounds are `0` and `2π`. -/
theorem c3_velocity_phase_bounds (xc yc m : ℚ) (hm : 0 ≤ m) :
    ((velocity_space xc yc m)[2]?
        = some ("velocity", BoundExpr.negSqrtHalfSq m, BoundExpr.sqrtHalfSq m))
  ∧ (BoundExpr.negSqrtHalfSq m).toReal = -((m : ℝ) / Real.sqrt 2)
  ∧ (BoundExpr.sqrtHalfSq m).toReal = (m : ℝ) / Real.sqrt 2
  ∧ ((velocity_space xc yc m)[3]?
        = some ("angle", BoundExpr.rat (some 0), BoundExpr.twoPi))
  ∧ (BoundExpr.rat (some 0)).toReal = 0
  ∧ BoundExpr.twoPi.toReal = 2 * Real.pi := by
  have hm' : (0 : ℝ) ≤ (m : ℝ) := by exact_mod_cast hm
  have hs : Real.sqrt ((m : ℝ) ^ 2 / 2) = (m : ℝ) / Real.sqrt 2 := by
    rw [Real.sqrt_div (by positivity) 2, Real.sqrt_sq hm']
  refine ⟨rfl, ?_, ?_, rfl, ?_, rfl⟩
  · show -1 * Real.sqrt ((m : ℝ) ^ 2 / 2) = -((m : ℝ) / Real.sqrt 2)
    rw [hs]
    ring
  · exact hs
  · show ((0 : ℚ) : ℝ) = 0
    norm_num

/-- Witness for C3's amended statement at `max_velocity = 5`. -/
theorem c3_velocity_phase_bounds_witness :
    (BoundExpr.negSqrtHalfSq 5).toReal = -(((5 : ℚ) : ℝ) / Real.sqrt 2) :=
  (c3_velocity_phase_bounds 0 0 5 (by norm_num)).2.1

/-- Counterexample to C3 as stated: at `max_velocity = 5` the lower speed
bound handed to the library is not `0` and the upper bound is not `5`. -/
theorem c3_velocity_phase_bounds_counterexample :
    ((velocity_space 0 0 5)[2]?
        = some ("velocity", BoundExpr.negSqrtHalfSq 5, BoundExpr.sqrtHalfSq 5))
  ∧ (BoundExpr.negSqrtHalfSq 5).toReal ≠ 0
  ∧ (BoundExpr.sqrtHalfSq 5).toReal ≠ 5 := by
  have hc : (((5 : ℚ)) : ℝ) = 5 := by norm_num
  refine ⟨rfl, ?_, ?_⟩
  · show -1 * Real.sqrt (((5 : ℚ) : ℝ) ^ 2 / 2) ≠ 0
    rw [hc]
    have h : 0 < Real.sqrt ((5 : ℝ) ^ 2 / 2) := Real.sqrt_pos.mpr (by norm_num)
    intro h0
    nlinarith
  · show Real.sqrt (((5 : ℚ) : ℝ) ^ 2 / 2) ≠ 5
    rw [hc]
    intro h0
    have h := Real.sq_sqrt (show (0 : ℝ) ≤ (5 : ℝ) ^ 2 / 2 by norm_num)
    rw [h0] at h
    norm_num at h

/-- Claim C2 (code bug): the docstring promises that with `location_trials > 0`
and `velocity_trials = 0` the call returns the optimal location with zero
velocity, but the zero-velocity-phase dict is built with keys
`"x_velocity"`/`"y_velocity"` while the final plotting step reads
`velocity_optimization["velocity"]`, so the call crashes with a `KeyError`
even on the default arguments (`velocity_trials = 0`). -/
theorem c2_velocity_trials_zero_keyerror :
    get_optimal_location_on_pitch ctxOpt sample0 20 50 0 5
      = Except.error (PyError.keyError "velocity") := by decide

end PitchControl
